import Mathlib

/-! # KThread scheduling-status engine

A shallow embedding of the inline members of `mesosphere::KThread`
(`mesosphere/threading/KThread.hpp`) and theorems about them.

Machine integers are natural numbers (or integers for signed fields); a value
stored into a `ushort` field is reduced modulo `2^16`, and the operands of the
bitwise operators are the 32-bit two's-complement patterns of the promoted C++
`int` operands.
-/

namespace mesosphere

/-! ## Integer helpers -/

/-- Conversion of a promoted `int` bit pattern to `ushort`. -/
def toUShort (x : Nat) : Nat := x % 65536

/-- The 32-bit two's-complement pattern of the C++ `int` expression `~x`. -/
def intNot (x : Nat) : Nat := 0xFFFFFFFF ^^^ x

/-- Conversion of a `u64` value to the 64-bit signed `long`. -/
def toLong (x : Nat) : Int :=
  if x % 18446744073709551616 < 9223372036854775808 then (x % 18446744073709551616 : Nat)
  else ((x % 18446744073709551616 : Nat) : Int) - 18446744073709551616

/-! ## Collaborator types -/

/-- Modelled from the spec: `KProcess.hpp` is not part of the sources. The owning
process supplies a per-process scheduler operation count that
`GetSchedulerOperationCount` reads and `IncrementSchedulerOperationCount` raises
by one. It also offers a hook that records the last thread (by id) and an
idle-selection count. -/
structure KProcess where
  schedulerOperationCount : Int
  lastThread : Option Nat := none
  idleSelectionCount : Nat := 0
deriving DecidableEq, Repr

/-- Modelled from the spec: accessor of the absent `KProcess`. -/
def KProcess.GetSchedulerOperationCount (p : KProcess) : Int := p.schedulerOperationCount

/-- Modelled from the spec: the absent `KProcess` raises its count by one. -/
def KProcess.IncrementSchedulerOperationCount (p : KProcess) : KProcess :=
  { p with schedulerOperationCount := p.schedulerOperationCount + 1 }

/-- Modelled from the spec: the "set last thread and idle-selection count" hook
of the absent `KProcess`. -/
def KProcess.SetLastThreadAndIdleSelectionCount (p : KProcess) (thread : Nat)
    (idleSelectionCount : Nat) : KProcess :=
  { p with lastThread := some thread, idleSelectionCount := idleSelectionCount }

/-- Modelled from the spec: `Result.hpp` is not part of the sources. A result is
a result code. -/
structure Result where
  code : Nat
deriving DecidableEq, Repr

/-- Modelled from the spec: the distinguished success result of the absent
`Result.hpp`. -/
def ResultSuccess : Result := ⟨0⟩

/-! ## Enumerations -/

/-- The `enum class SchedulingStatus : u16`: a `u16` value; the cast
`(SchedulingStatus)(mask & 0xF)` can produce values that are not enumerators. -/
structure SchedulingStatus where
  val : Nat
deriving DecidableEq, Repr

namespace SchedulingStatus

def Paused : SchedulingStatus := ⟨1⟩
def Running : SchedulingStatus := ⟨2⟩
def Exited : SchedulingStatus := ⟨3⟩

end SchedulingStatus

/-- The `enum class ForcePauseReason : u16` with its five enumerators. -/
inductive ForcePauseReason where
  | ThreadActivity
  | ProcessActivity
  | Debug
  | Reserved
  | KernelLoading
deriving DecidableEq, Repr

/-- The cast `(ushort)reason`. -/
def ForcePauseReason.toUShort : ForcePauseReason → Nat
  | .ThreadActivity => 0
  | .ProcessActivity => 1
  | .Debug => 2
  | .Reserved => 3
  | .KernelLoading => 4

/-! ## The thread control block -/

/-- Data members of `KThread` (pointers are optional addresses). The intrusive
list hooks and `schedulerNodes` are touched by no inline member and are left
out. -/
structure KThread where
  owner : Option KProcess := none
  currentWaitList : Option Nat := none
  id : Nat := 0
  redundantSchedulerOperationCount : Int := 0
  currentSchedMaskFull : Nat := SchedulingStatus.Paused.val
  schedMaskForForcePauseFull : Nat := 0
  terminationWanted : Bool := false
  basePriority : Nat := 64
  priority : Nat := 64
  currentCoreId : Int := -1
  affinityMask : Nat := 0
  isSyncCancelled : Bool := false
  isWaitingSync : Bool := false
  currentLightSessionRequest : Option Nat := none
  wantedMutex : Nat := 0
  wantedMutexOwner : Option Nat := none
  mutexWaitList : List Nat := []
  numKernelMutexWaiters : Nat := 0
  kernelStackTop : Nat := 0
  signaledSyncObject : Option Nat := none
  syncResult : Result := ResultSuccess
  lastScheduledTime : Nat := 0
deriving DecidableEq, Repr

namespace KThread

/-- The constructor `KThread(KProcess *owner, u64 id, uint priority)`. -/
def mk3 (owner : Option KProcess) (id : Nat) (priority : Nat) : KThread :=
  { owner := owner, id := id, basePriority := priority, priority := priority,
    currentCoreId := 0, affinityMask := 15 }

/-- The `ushort` fields hold 16-bit values. -/
def WellFormed (t : KThread) : Prop :=
  t.currentSchedMaskFull < 65536 ∧ t.schedMaskForForcePauseFull < 65536

instance (t : KThread) : Decidable t.WellFormed := by
  unfold WellFormed; infer_instance

/-! ### Accessors -/

def GetPriority (t : KThread) : Nat := t.priority
def GetId (t : KThread) : Nat := t.id
def GetCurrentCoreId (t : KThread) : Int := t.currentCoreId
def GetAffinityMask (t : KThread) : Nat := t.affinityMask
/-- The getter returns the `u64` field as a `long`. -/
def GetLastScheduledTime (t : KThread) : Int := toLong t.lastScheduledTime
def GetOwner (t : KThread) : Option KProcess := t.owner
def IsInKernelSync (t : KThread) : Bool := t.currentWaitList.isSome
def IsWaitingSync (t : KThread) : Bool := t.isWaitingSync
def IsSyncCancelled (t : KThread) : Bool := t.isSyncCancelled
def GetSyncResult (t : KThread) : Result := t.syncResult
def GetNumberOfKMutexWaiters (t : KThread) : Nat := t.numKernelMutexWaiters
def GetWantedMutex (t : KThread) : Nat := t.wantedMutex

/-- `(SchedulingStatus)(currentSchedMaskFull & 0xF)`. -/
def GetSchedulingStatus (t : KThread) : SchedulingStatus :=
  ⟨t.currentSchedMaskFull &&& 0xF⟩

/-- `(schedMaskForForcePauseFull & (1 << (4 + ((ushort)reason)))) != 0`. -/
def IsForcePausedFor (t : KThread) (reason : ForcePauseReason) : Bool :=
  (t.schedMaskForForcePauseFull &&& (1 <<< (4 + reason.toUShort))) != 0

/-- `(schedMaskForForcePauseFull & ~0xF) != 0`. -/
def IsForcePaused (t : KThread) : Bool :=
  (t.schedMaskForForcePauseFull &&& intNot 0xF) != 0

/-- The static `CompareSchedulingStatusFull(ushort fullMask, SchedulingStatus status)`:
`fullMask == (ushort)status`. -/
def CompareSchedulingStatusFullStatic (fullMask : Nat) (status : SchedulingStatus) : Bool :=
  fullMask == toUShort status.val

/-- The member `CompareSchedulingStatusFull(SchedulingStatus status)`: it passes
`schedMaskForForcePauseFull` to the static overload. -/
def CompareSchedulingStatusFull (t : KThread) (status : SchedulingStatus) : Bool :=
  CompareSchedulingStatusFullStatic t.schedMaskForForcePauseFull status

/-- `CompareSchedulingStatusFull(SchedulingStatus::Exited) || terminationWanted`. -/
def IsDying (t : KThread) : Bool :=
  t.CompareSchedulingStatusFull SchedulingStatus.Exited || t.terminationWanted

/-- `owner != nullptr && owner->GetSchedulerOperationCount() == redundantSchedulerOperationCount`. -/
def IsSchedulerOperationRedundant (t : KThread) : Bool :=
  match t.owner with
  | none => false
  | some p => p.GetSchedulerOperationCount == t.redundantSchedulerOperationCount

/-! ### Mutators -/

/-- `if (owner != nullptr) owner->IncrementSchedulerOperationCount();` -/
def IncrementSchedulerOperationCount (t : KThread) : KThread :=
  match t.owner with
  | none => t
  | some p => { t with owner := some p.IncrementSchedulerOperationCount }

/-- `redundantSchedulerOperationCount = owner != nullptr ?
owner->GetSchedulerOperationCount() : redundantSchedulerOperationCount;` -/
def SetRedundantSchedulerOperation (t : KThread) : KThread :=
  { t with redundantSchedulerOperationCount :=
      match t.owner with
      | some p => p.GetSchedulerOperationCount
      | none => t.redundantSchedulerOperationCount }

def SetCurrentCoreId (t : KThread) (coreId : Int) : KThread :=
  { t with currentCoreId := coreId }

/-- `if (owner != nullptr) owner->SetLastThreadAndIdleSelectionCount(this, idleSelectionCount);`
with `this` passed as the thread id. -/
def SetProcessLastThreadAndIdleSelectionCount (t : KThread) (idleSelectionCount : Nat) : KThread :=
  match t.owner with
  | none => t
  | some p =>
    { t with owner := some (p.SetLastThreadAndIdleSelectionCount t.id idleSelectionCount) }

/-- `++lastScheduledTime` on a `u64`. -/
def UpdateLastScheduledTime (t : KThread) : KThread :=
  { t with lastScheduledTime := (t.lastScheduledTime + 1) % 2 ^ 64 }

/-- Returns the old full mask and the updated thread:
`currentSchedMaskFull = (currentSchedMaskFull & ~0xF) | ((ushort)status & 0xF)`. -/
def SetSchedulingStatusField (t : KThread) (status : SchedulingStatus) : Nat × KThread :=
  (t.currentSchedMaskFull,
   { t with currentSchedMaskFull :=
      toUShort ((t.currentSchedMaskFull &&& intNot 0xF) ||| (toUShort status.val &&& 0xF)) })

/-- `schedMaskForForcePauseFull |= 1 << (4 + ((ushort)reason))`. -/
def AddForcePauseReasonToField (t : KThread) (reason : ForcePauseReason) : KThread :=
  { t with schedMaskForForcePauseFull :=
      toUShort (t.schedMaskForForcePauseFull ||| (1 <<< (4 + reason.toUShort))) }

/-- `schedMaskForForcePauseFull |= ~(1 << (4 + ((ushort)reason)))`. -/
def RemoveForcePauseReasonToField (t : KThread) (reason : ForcePauseReason) : KThread :=
  { t with schedMaskForForcePauseFull :=
      toUShort (t.schedMaskForForcePauseFull ||| intNot (1 <<< (4 + reason.toUShort))) }

/-- Returns the old full mask and the updated thread:
`currentSchedMaskFull = (schedMaskForForcePauseFull & ~0xF) | (currentSchedMaskFull & 0xF)`. -/
def CommitForcePauseToField (t : KThread) : Nat × KThread :=
  (t.currentSchedMaskFull,
   { t with currentSchedMaskFull :=
      toUShort ((t.schedMaskForForcePauseFull &&& intNot 0xF) ||| (t.currentSchedMaskFull &&& 0xF)) })

/-- Returns the old full mask and the updated thread: `currentSchedMaskFull &= 0xF`. -/
def RevertForcePauseToField (t : KThread) : Nat × KThread :=
  (t.currentSchedMaskFull,
   { t with currentSchedMaskFull := toUShort (t.currentSchedMaskFull &&& 0xF) })

/-- `terminationWanted = true` (the fence has no effect on the data). -/
def SetTerminationWanted (t : KThread) : KThread :=
  { t with terminationWanted := true }

def SetWaitingSync (t : KThread) (isWaitingSync : Bool) : KThread :=
  { t with isWaitingSync := isWaitingSync }

def SetSyncCancelled (t : KThread) (isSyncCancelled : Bool) : KThread :=
  { t with isSyncCancelled := isSyncCancelled }

/-- `signaledSyncObject = nullptr; syncResult = ResultSuccess();` -/
def ClearSync (t : KThread) : KThread :=
  { t with signaledSyncObject := none, syncResult := ResultSuccess }

def SetCurrentLightSessionRequest (t : KThread) (req : Option Nat) : KThread :=
  { t with currentLightSessionRequest := req }

def SetWantedMutex (t : KThread) (mtx : Nat) : KThread :=
  { t with wantedMutex := mtx }

/-- Bits 4 and above of a full mask: the force-pause reason bits. -/
def reasonBits (mask : Nat) : Nat := mask >>> 4

/-- The wanted mask is empty or carries the bit of a declared reason. -/
def WantedDeclared (t : KThread) : Prop :=
  t.schedMaskForForcePauseFull = 0 ∨ ∃ r : ForcePauseReason, t.IsForcePausedFor r = true

/-! ### Sequences of operations -/

/-- The state-mutating inline members of `KThread`. -/
inductive Op where
  | SetSchedulingStatusField (status : SchedulingStatus)
  | AddForcePauseReasonToField (reason : ForcePauseReason)
  | RemoveForcePauseReasonToField (reason : ForcePauseReason)
  | CommitForcePauseToField
  | RevertForcePauseToField
  | SetTerminationWanted
  | SetCurrentCoreId (coreId : Int)
  | SetWaitingSync (isWaitingSync : Bool)
  | SetSyncCancelled (isSyncCancelled : Bool)
  | ClearSync
  | SetWantedMutex (mtx : Nat)
  | SetRedundantSchedulerOperation
  | UpdateLastScheduledTime
  | IncrementSchedulerOperationCount
  | SetCurrentLightSessionRequest (req : Option Nat)
  | SetProcessLastThreadAndIdleSelectionCount (idleSelectionCount : Nat)
deriving DecidableEq, Repr

/-- One call of a mutator; a returned old mask is dropped. -/
def applyOp (t : KThread) : Op → KThread
  | .SetSchedulingStatusField status => (t.SetSchedulingStatusField status).2
  | .AddForcePauseReasonToField reason => t.AddForcePauseReasonToField reason
  | .RemoveForcePauseReasonToField reason => t.RemoveForcePauseReasonToField reason
  | .CommitForcePauseToField => t.CommitForcePauseToField.2
  | .RevertForcePauseToField => t.RevertForcePauseToField.2
  | .SetTerminationWanted => t.SetTerminationWanted
  | .SetCurrentCoreId coreId => t.SetCurrentCoreId coreId
  | .SetWaitingSync isWaitingSync => t.SetWaitingSync isWaitingSync
  | .SetSyncCancelled isSyncCancelled => t.SetSyncCancelled isSyncCancelled
  | .ClearSync => t.ClearSync
  | .SetWantedMutex mtx => t.SetWantedMutex mtx
  | .SetRedundantSchedulerOperation => t.SetRedundantSchedulerOperation
  | .UpdateLastScheduledTime => t.UpdateLastScheduledTime
  | .IncrementSchedulerOperationCount => t.IncrementSchedulerOperationCount
  | .SetCurrentLightSessionRequest req => t.SetCurrentLightSessionRequest req
  | .SetProcessLastThreadAndIdleSelectionCount idleSelectionCount =>
    t.SetProcessLastThreadAndIdleSelectionCount idleSelectionCount

/-- A finite sequence of mutator calls, first element first. -/
def runOps (t : KThread) (ops : List Op) : KThread := ops.foldl applyOp t

/-- A change of the wanted reason set. -/
inductive ReasonOp where
  | add (reason : ForcePauseReason)
  | remove (reason : ForcePauseReason)
deriving DecidableEq, Repr

/-- One reason toggle followed by the commit step. -/
def applyReasonOp (t : KThread) : ReasonOp → KThread
  | .add reason => (t.AddForcePauseReasonToField reason).CommitForcePauseToField.2
  | .remove reason => (t.RemoveForcePauseReasonToField reason).CommitForcePauseToField.2

/-- A finite sequence of committed reason toggles, first element first. -/
def runReasonOps (t : KThread) (ops : List ReasonOp) : KThread := ops.foldl applyReasonOp t

/-- The reason set as the specification describes it: the reasons that were
added and not subsequently removed. -/
def trackReason (s : List ForcePauseReason) : ReasonOp → List ForcePauseReason
  | .add reason => if reason ∈ s then s else reason :: s
  | .remove reason => s.filter (fun r => r != reason)

/-- The specification's reason set after a sequence of toggles, starting empty. -/
def reasonSetAfter (ops : List ReasonOp) : List ForcePauseReason := ops.foldl trackReason []

end KThread

end mesosphere

/-! ## Bit-level lemmas -/

namespace mesosphere

theorem intNot_0xF : intNot 0xF = 0xFFFFFFF0 := by decide

theorem and_0xF_eq_mod (x : Nat) : x &&& 0xF = x % 16 := by
  have h := Nat.and_pow_two_sub_one_eq_mod x 4
  simpa using h

theorem testBit_0xFFFFFFF0 (i : Nat) :
    Nat.testBit 0xFFFFFFF0 i = (decide (4 ≤ i) && decide (i < 32)) := by
  have h : (0xFFFFFFF0 : Nat) = 2 ^ 4 * (2 ^ 28 - 1) := by norm_num
  rw [h, Nat.testBit_mul_pow_two, Nat.testBit_two_pow_sub_one]
  by_cases h4 : 4 ≤ i <;> simp [h4]
  omega

theorem testBit_of_lt_65536 (x i : Nat) (hx : x < 65536) (hi : 16 ≤ i) :
    x.testBit i = false := by
  apply Nat.testBit_lt_two_pow
  have h : 2 ^ 16 ≤ 2 ^ i := Nat.pow_le_pow_right (by norm_num) hi
  omega

/-- Clearing the low nibble of a 16-bit value. -/
theorem and_high_eq (x : Nat) (hx : x < 65536) : x &&& 0xFFFFFFF0 = 16 * (x / 16) := by
  apply Nat.eq_of_testBit_eq
  intro i
  have h16 : (16 : Nat) = 2 ^ 4 := by norm_num
  rw [Nat.testBit_and, testBit_0xFFFFFFF0, h16, Nat.testBit_mul_pow_two,
    ← Nat.shiftRight_eq_div_pow, Nat.testBit_shiftRight]
  by_cases h4 : 4 ≤ i
  · have e : 4 + (i - 4) = i := by omega
    by_cases h32 : i < 32
    · simp [h4, h32, e]
    · simp [h4, h32, e]
      exact testBit_of_lt_65536 x i hx (by omega)
  · simp [h4]

theorem or_nibble_eq_add (a b : Nat) (hb : b < 16) : 16 * a ||| b = 16 * a + b := by
  have h := Nat.mul_add_lt_is_or (i := 4) (b := b) (by simpa using hb) a
  simpa using h.symm

/-- Testing one bit with a shifted one. -/
theorem and_one_shiftLeft_bne_zero (w n : Nat) :
    ((w &&& (1 <<< n)) != 0) = w.testBit n := by
  rw [Nat.one_shiftLeft]
  have h : w &&& 2 ^ n = if w.testBit n then 2 ^ n else 0 := by
    apply Nat.eq_of_testBit_eq
    intro i
    rw [Nat.testBit_and, Nat.testBit_two_pow]
    by_cases hni : n = i
    · subst hni; cases hw : w.testBit n <;> simp [hw]
    · cases hw : w.testBit n <;> simp [hw, hni, Nat.testBit_two_pow]
  rw [h]
  cases hw : w.testBit n <;> simp [hw]

theorem testBit_toUShort (x i : Nat) :
    (toUShort x).testBit i = (decide (i < 16) && x.testBit i) := by
  have h : (65536 : Nat) = 2 ^ 16 := by norm_num
  unfold toUShort
  rw [h, Nat.testBit_mod_two_pow]

theorem testBit_intNot (x i : Nat) :
    (intNot x).testBit i = (decide (i < 32) ^^ x.testBit i) := by
  have h : (0xFFFFFFFF : Nat) = 2 ^ 32 - 1 := by norm_num
  unfold intNot
  rw [Nat.testBit_xor, h, Nat.testBit_two_pow_sub_one]

end mesosphere

/-! ## Reason bits of the wanted mask -/

namespace mesosphere.KThread

theorem toUShort_reason_lt (r : ForcePauseReason) : 4 + r.toUShort < 16 := by
  cases r <;> decide

theorem IsForcePausedFor_eq_testBit (t : KThread) (r : ForcePauseReason) :
    t.IsForcePausedFor r = t.schedMaskForForcePauseFull.testBit (4 + r.toUShort) := by
  unfold IsForcePausedFor
  exact and_one_shiftLeft_bne_zero _ _

theorem toUShort_injective (r r' : ForcePauseReason) (h : r.toUShort = r'.toUShort) : r = r' := by
  cases r <;> cases r' <;> first | rfl | (exact absurd h (by decide))

theorem testBit_AddForcePauseReasonToField (t : KThread) (r : ForcePauseReason) (i : Nat) :
    (t.AddForcePauseReasonToField r).schedMaskForForcePauseFull.testBit i =
      (decide (i < 16) && (t.schedMaskForForcePauseFull.testBit i || decide (4 + r.toUShort = i))) := by
  unfold AddForcePauseReasonToField
  simp only [testBit_toUShort, Nat.testBit_or, Nat.one_shiftLeft, Nat.testBit_two_pow]

theorem testBit_RemoveForcePauseReasonToField (t : KThread) (r : ForcePauseReason) (i : Nat) :
    (t.RemoveForcePauseReasonToField r).schedMaskForForcePauseFull.testBit i =
      (decide (i < 16) &&
        (t.schedMaskForForcePauseFull.testBit i || (decide (i < 32) ^^ decide (4 + r.toUShort = i)))) := by
  unfold RemoveForcePauseReasonToField
  simp only [testBit_toUShort, Nat.testBit_or, testBit_intNot, Nat.one_shiftLeft,
    Nat.testBit_two_pow]

/-- What the removal helper does to the per-reason tests: the named reason keeps
its value and every other reason becomes set. -/
theorem IsForcePausedFor_RemoveForcePauseReasonToField (t : KThread) (r r' : ForcePauseReason) :
    (t.RemoveForcePauseReasonToField r).IsForcePausedFor r' =
      if r' = r then t.IsForcePausedFor r else true := by
  rw [IsForcePausedFor_eq_testBit, testBit_RemoveForcePauseReasonToField]
  have h16 := toUShort_reason_lt r'
  have h32 : 4 + r'.toUShort < 32 := by omega
  by_cases h : r' = r
  · subst h
    simp [h16, h32, IsForcePausedFor_eq_testBit]
  · have hne : ¬ (4 + r.toUShort = 4 + r'.toUShort) := by
      intro e
      exact h (toUShort_injective r' r (by omega))
    simp [h16, h32, h, hne]

/-- What the addition helper does to the per-reason tests. -/
theorem IsForcePausedFor_AddForcePauseReasonToField (t : KThread) (r r' : ForcePauseReason) :
    (t.AddForcePauseReasonToField r).IsForcePausedFor r' =
      if r' = r then true else t.IsForcePausedFor r' := by
  rw [IsForcePausedFor_eq_testBit, testBit_AddForcePauseReasonToField]
  have h16 := toUShort_reason_lt r'
  by_cases h : r' = r
  · subst h
    simp [h16]
  · have hne : ¬ (4 + r.toUShort = 4 + r'.toUShort) := by
      intro e
      exact h (toUShort_injective r' r (by omega))
    simp [h16, h, hne, IsForcePausedFor_eq_testBit]

/-- The termination flag survives every mutator. -/
theorem terminationWanted_applyOp (t : KThread) (op : Op) (h : t.terminationWanted = true) :
    (applyOp t op).terminationWanted = true := by
  cases op <;> try exact h
  · rfl
  · unfold applyOp IncrementSchedulerOperationCount
    cases t.owner <;> exact h
  · unfold applyOp SetProcessLastThreadAndIdleSelectionCount
    cases t.owner <;> exact h

theorem terminationWanted_runOps (ops : List Op) (t : KThread) (h : t.terminationWanted = true) :
    (runOps t ops).terminationWanted = true := by
  induction ops generalizing t with
  | nil => exact h
  | cons op rest ih => exact ih (applyOp t op) (terminationWanted_applyOp t op h)

/-! ### Arithmetic form of the committed mask updates -/

theorem testBit_0xF (i : Nat) : Nat.testBit 0xF i = decide (i < 4) := by
  have h : (0xF : Nat) = 2 ^ 4 - 1 := by norm_num
  rw [h, Nat.testBit_two_pow_sub_one]

/-- Storing `a | b` where `a` has an empty low nibble keeps the low nibble of `b`. -/
theorem nibble_toUShort_or (a b : Nat) (ha : ∀ i, i < 4 → a.testBit i = false) :
    toUShort (a ||| b) &&& 0xF = b &&& 0xF := by
  apply Nat.eq_of_testBit_eq
  intro i
  rw [Nat.testBit_and, Nat.testBit_and, testBit_toUShort, Nat.testBit_or, testBit_0xF]
  by_cases h4 : i < 4
  · have h16 : i < 16 := by omega
    simp [h4, h16, ha i h4]
  · simp [h4]

theorem testBit_and_intNot_0xF_low (x i : Nat) (hi : i < 4) :
    (x &&& intNot 0xF).testBit i = false := by
  rw [intNot_0xF, Nat.testBit_and, testBit_0xFFFFFFF0]
  have h : ¬ 4 ≤ i := by omega
  simp [h]

theorem high_or_nibble_toUShort (x b : Nat) (hx : x < 65536) :
    toUShort ((x &&& intNot 0xF) ||| (b &&& 0xF)) = 16 * (x / 16) + b % 16 := by
  rw [intNot_0xF, and_high_eq x hx, and_0xF_eq_mod,
    or_nibble_eq_add _ _ (Nat.mod_lt _ (by norm_num))]
  unfold toUShort
  omega

theorem reasonBits_eq_div (m : Nat) : reasonBits m = m / 16 := by
  unfold reasonBits
  rw [Nat.shiftRight_eq_div_pow]

theorem GetSchedulingStatus_CommitForcePauseToField (t : KThread) :
    t.CommitForcePauseToField.2.GetSchedulingStatus = t.GetSchedulingStatus := by
  unfold GetSchedulingStatus CommitForcePauseToField
  simp only
  rw [nibble_toUShort_or _ _ (testBit_and_intNot_0xF_low _), and_0xF_eq_mod, and_0xF_eq_mod]
  simp

theorem GetSchedulingStatus_RevertForcePauseToField (t : KThread) :
    t.RevertForcePauseToField.2.GetSchedulingStatus = t.GetSchedulingStatus := by
  unfold GetSchedulingStatus RevertForcePauseToField toUShort
  simp only [and_0xF_eq_mod]
  congr 1
  omega

theorem GetSchedulingStatus_SetSchedulingStatusField (t : KThread) (s : SchedulingStatus) :
    (t.SetSchedulingStatusField s).2.GetSchedulingStatus = ⟨s.val % 16⟩ := by
  unfold GetSchedulingStatus SetSchedulingStatusField
  simp only
  rw [nibble_toUShort_or _ _ (testBit_and_intNot_0xF_low _), and_0xF_eq_mod, and_0xF_eq_mod]
  unfold toUShort
  congr 1
  omega

/-! ### The 16-bit invariant -/

theorem toUShort_lt (x : Nat) : toUShort x < 65536 := by
  unfold toUShort
  omega

theorem WellFormed_mk3 (owner : Option KProcess) (id p : Nat) : (mk3 owner id p).WellFormed := by
  constructor
  · show (1 : Nat) < 65536
    decide
  · show (0 : Nat) < 65536
    decide

theorem WellFormed_applyOp (t : KThread) (op : Op) (h : t.WellFormed) :
    (applyOp t op).WellFormed := by
  cases op
  case SetSchedulingStatusField s => exact ⟨toUShort_lt _, h.2⟩
  case AddForcePauseReasonToField r => exact ⟨h.1, toUShort_lt _⟩
  case RemoveForcePauseReasonToField r => exact ⟨h.1, toUShort_lt _⟩
  case CommitForcePauseToField => exact ⟨toUShort_lt _, h.2⟩
  case RevertForcePauseToField => exact ⟨toUShort_lt _, h.2⟩
  case IncrementSchedulerOperationCount =>
    unfold applyOp IncrementSchedulerOperationCount
    cases t.owner <;> exact h
  case SetProcessLastThreadAndIdleSelectionCount c =>
    unfold applyOp SetProcessLastThreadAndIdleSelectionCount
    cases t.owner <;> exact h
  all_goals exact h

theorem WellFormed_runOps (ops : List Op) (t : KThread) (h : t.WellFormed) :
    (runOps t ops).WellFormed := by
  induction ops generalizing t with
  | nil => exact h
  | cons op rest ih => exact ih (applyOp t op) (WellFormed_applyOp t op h)

/-! ### What `IsDying` reads -/

/-- The status half of `IsDying` tests the wanted mask against 3. -/
theorem IsDying_eq (t : KThread) :
    t.IsDying = (t.schedMaskForForcePauseFull == 3 || t.terminationWanted) := rfl

/-! ### Committed reason toggles without removals -/

theorem WellFormed_applyReasonOp (t : KThread) (op : ReasonOp) :
    (applyReasonOp t op).WellFormed := by
  cases op <;> exact ⟨toUShort_lt _, toUShort_lt _⟩

theorem WellFormed_runReasonOps (ops : List ReasonOp) (t : KThread) (h : t.WellFormed) :
    (runReasonOps t ops).WellFormed := by
  induction ops generalizing t with
  | nil => exact h
  | cons op rest ih => exact ih (applyReasonOp t op) (WellFormed_applyReasonOp t op)

theorem runReasonOps_append (t : KThread) (xs ys : List ReasonOp) :
    runReasonOps t (xs ++ ys) = runReasonOps (runReasonOps t xs) ys := by
  unfold runReasonOps
  rw [List.foldl_append]

theorem reasonSetAfter_append_add_ne_nil (xs : List ReasonOp) (r : ForcePauseReason) :
    reasonSetAfter (xs ++ [.add r]) ≠ [] := by
  unfold reasonSetAfter
  rw [List.foldl_append]
  simp only [List.foldl_cons, List.foldl_nil, trackReason]
  split
  · rename_i hmem
    intro hnil
    rw [hnil] at hmem
    exact absurd hmem (List.not_mem_nil r)
  · exact List.cons_ne_nil _ _

/-- After an addition and its commit the committed mask carries a reason bit. -/
theorem sixteen_le_committed_after_add (t : KThread) (r : ForcePauseReason) :
    16 ≤ (applyReasonOp t (.add r)).currentSchedMaskFull := by
  have hw : (t.AddForcePauseReasonToField r).schedMaskForForcePauseFull < 65536 := toUShort_lt _
  have hbit : (t.AddForcePauseReasonToField r).schedMaskForForcePauseFull.testBit
      (4 + r.toUShort) = true := by
    rw [testBit_AddForcePauseReasonToField]
    simp [toUShort_reason_lt r]
  have hge := Nat.testBit_implies_ge hbit
  have h16 : 2 ^ 4 ≤ 2 ^ (4 + r.toUShort) := Nat.pow_le_pow_right (by norm_num) (by omega)
  have e : (applyReasonOp t (.add r)).currentSchedMaskFull
      = 16 * ((t.AddForcePauseReasonToField r).schedMaskForForcePauseFull / 16)
        + (t.AddForcePauseReasonToField r).currentSchedMaskFull % 16 :=
    high_or_nibble_toUShort _ _ hw
  rw [e]
  omega

/-- With additions only, the invariant of C3 holds: starting from empty wanted
and committed reason sets, after any sequence of committed additions the
committed mask compares equal to `Running` exactly when the nominal status is
`Running` and the reason set is empty. -/
theorem add_only_runnable_iff (t : KThread) (rs : List ForcePauseReason)
    (hc : reasonBits t.currentSchedMaskFull = 0) :
    CompareSchedulingStatusFullStatic
        (runReasonOps t (rs.map ReasonOp.add)).currentSchedMaskFull SchedulingStatus.Running = true
      ↔ (runReasonOps t (rs.map ReasonOp.add)).GetSchedulingStatus = SchedulingStatus.Running ∧
        reasonSetAfter (rs.map ReasonOp.add) = [] := by
  rcases List.eq_nil_or_concat rs with hnil | ⟨init, last, hcat⟩
  · subst hnil
    rw [reasonBits_eq_div] at hc
    simp only [List.map_nil, runReasonOps, List.foldl_nil, reasonSetAfter, and_true]
    unfold CompareSchedulingStatusFullStatic GetSchedulingStatus SchedulingStatus.Running toUShort
    rw [and_0xF_eq_mod]
    simp only [beq_iff_eq, SchedulingStatus.mk.injEq]
    omega
  · subst hcat
    rw [List.concat_eq_append, List.map_append, List.map_cons, List.map_nil, runReasonOps_append]
    have hge := sixteen_le_committed_after_add (runReasonOps t (init.map ReasonOp.add)) last
    have hcur : runReasonOps (runReasonOps t (init.map ReasonOp.add)) [ReasonOp.add last]
        = applyReasonOp (runReasonOps t (init.map ReasonOp.add)) (.add last) := rfl
    rw [hcur]
    constructor
    · intro hcmp
      unfold CompareSchedulingStatusFullStatic SchedulingStatus.Running toUShort at hcmp
      simp only [beq_iff_eq] at hcmp
      omega
    · intro hrhs
      exact absurd hrhs.2 (reasonSetAfter_append_add_ne_nil _ last)

/-! ### The static comparison in arithmetic form -/

theorem and_intNot_0xF_eq (m : Nat) (hm : m < 65536) : m &&& intNot 0xF = 16 * (m / 16) := by
  rw [intNot_0xF, and_high_eq m hm]

theorem CompareSchedulingStatusFullStatic_iff (m : Nat) (s : SchedulingStatus) (hm : m < 65536)
    (hs : s.val < 16) :
    CompareSchedulingStatusFullStatic m s = true ↔
      ((⟨m &&& 0xF⟩ : SchedulingStatus) = s ∧ m &&& intNot 0xF = 0) := by
  obtain ⟨v⟩ := s
  simp only at hs
  unfold CompareSchedulingStatusFullStatic toUShort
  rw [and_intNot_0xF_eq m hm, and_0xF_eq_mod]
  simp only [beq_iff_eq, SchedulingStatus.mk.injEq]
  omega

/-! ### The redundant-operation counter -/

theorem owner_iterate_IncrementSchedulerOperationCount (n : Nat) (t : KThread) (p : KProcess)
    (ho : t.owner = some p) :
    (Nat.iterate IncrementSchedulerOperationCount n t).owner
        = some { p with schedulerOperationCount := p.schedulerOperationCount + n } ∧
    (Nat.iterate IncrementSchedulerOperationCount n t).redundantSchedulerOperationCount
        = t.redundantSchedulerOperationCount := by
  induction n generalizing t p with
  | zero => simpa using ho
  | succ k ih =>
    have hstep : t.IncrementSchedulerOperationCount.owner
        = some p.IncrementSchedulerOperationCount := by
      unfold IncrementSchedulerOperationCount
      rw [ho]
    have hred : t.IncrementSchedulerOperationCount.redundantSchedulerOperationCount
        = t.redundantSchedulerOperationCount := by
      unfold IncrementSchedulerOperationCount
      rw [ho]
    have h := ih t.IncrementSchedulerOperationCount p.IncrementSchedulerOperationCount hstep
    rw [Function.iterate_succ_apply]
    refine ⟨?_, by rw [h.2, hred]⟩
    rw [h.1]
    unfold KProcess.IncrementSchedulerOperationCount
    simp only [Nat.cast_add, Nat.cast_one, Option.some.injEq, KProcess.mk.injEq, and_self,
      and_true]
    omega

theorem IsSchedulerOperationRedundant_SetRedundantSchedulerOperation (t : KThread)
    (p : KProcess) (ho : t.owner = some p) :
    t.SetRedundantSchedulerOperation.IsSchedulerOperationRedundant = true := by
  unfold IsSchedulerOperationRedundant SetRedundantSchedulerOperation
  simp [ho]

/-! ### The last-scheduled counter -/

theorem lastScheduledTime_applyOp (t : KThread) (op : Op) (h : op ≠ Op.UpdateLastScheduledTime) :
    (applyOp t op).lastScheduledTime = t.lastScheduledTime := by
  cases op
  case UpdateLastScheduledTime => exact absurd rfl h
  case IncrementSchedulerOperationCount =>
    unfold applyOp IncrementSchedulerOperationCount
    cases t.owner <;> rfl
  case SetProcessLastThreadAndIdleSelectionCount c =>
    unfold applyOp SetProcessLastThreadAndIdleSelectionCount
    cases t.owner <;> rfl
  all_goals rfl

theorem toLong_succ (x : Nat) (h : toLong x ≠ 9223372036854775807) :
    toLong ((x + 1) % 2 ^ 64) = toLong x + 1 := by
  unfold toLong at *
  have e : (2 : Nat) ^ 64 = 18446744073709551616 := by norm_num
  rw [e]
  split_ifs at h ⊢ <;> omega

/-! ### Commit after revert -/

theorem nibble_toUShort_nibble (c : Nat) : toUShort (c &&& 0xF) &&& 0xF = c &&& 0xF := by
  rw [and_0xF_eq_mod, and_0xF_eq_mod]
  unfold toUShort
  omega

theorem nibble_commit (w c : Nat) :
    toUShort ((w &&& intNot 0xF) ||| (c &&& 0xF)) &&& 0xF = c &&& 0xF := by
  rw [nibble_toUShort_or _ _ (testBit_and_intNot_0xF_low _)]
  simp only [and_0xF_eq_mod]
  omega

/-! ### The wanted mask only grows -/

theorem WantedDeclared_of_eq (t u : KThread)
    (h : u.schedMaskForForcePauseFull = t.schedMaskForForcePauseFull) (ht : t.WantedDeclared) :
    u.WantedDeclared := by
  unfold WantedDeclared IsForcePausedFor at *
  rw [h]
  exact ht

theorem WantedDeclared_applyOp (t : KThread) (op : Op) (h : t.WantedDeclared) :
    (applyOp t op).WantedDeclared := by
  cases op
  case AddForcePauseReasonToField r =>
    refine Or.inr ⟨r, ?_⟩
    show (t.AddForcePauseReasonToField r).IsForcePausedFor r = true
    rw [IsForcePausedFor_AddForcePauseReasonToField]
    simp
  case RemoveForcePauseReasonToField r =>
    by_cases hr : r = ForcePauseReason.ThreadActivity
    · refine Or.inr ⟨ForcePauseReason.ProcessActivity, ?_⟩
      show (t.RemoveForcePauseReasonToField r).IsForcePausedFor .ProcessActivity = true
      rw [IsForcePausedFor_RemoveForcePauseReasonToField, hr]
      simp
    · refine Or.inr ⟨ForcePauseReason.ThreadActivity, ?_⟩
      show (t.RemoveForcePauseReasonToField r).IsForcePausedFor .ThreadActivity = true
      rw [IsForcePausedFor_RemoveForcePauseReasonToField]
      have hne : ¬ ForcePauseReason.ThreadActivity = r := fun e => hr e.symm
      simp [hne]
  case IncrementSchedulerOperationCount =>
    refine WantedDeclared_of_eq t _ ?_ h
    unfold applyOp IncrementSchedulerOperationCount
    cases t.owner <;> rfl
  case SetProcessLastThreadAndIdleSelectionCount c =>
    refine WantedDeclared_of_eq t _ ?_ h
    unfold applyOp SetProcessLastThreadAndIdleSelectionCount
    cases t.owner <;> rfl
  all_goals exact WantedDeclared_of_eq t _ rfl h

theorem WantedDeclared_runOps (ops : List Op) (t : KThread) (h : t.WantedDeclared) :
    (runOps t ops).WantedDeclared := by
  induction ops generalizing t with
  | nil => exact h
  | cons op rest ih => exact ih (applyOp t op) (WantedDeclared_applyOp t op h)

/-- A set declared reason makes the aggregate test true, in every state. -/
theorem IsForcePaused_of_IsForcePausedFor (t : KThread) (r : ForcePauseReason)
    (h : t.IsForcePausedFor r = true) : t.IsForcePaused = true := by
  rw [IsForcePausedFor_eq_testBit] at h
  unfold IsForcePaused
  rw [intNot_0xF]
  have hbit : (t.schedMaskForForcePauseFull &&& 0xFFFFFFF0).testBit (4 + r.toUShort) = true := by
    rw [Nat.testBit_and, testBit_0xFFFFFFF0, h]
    have h32 : 4 + r.toUShort < 32 := by
      have := toUShort_reason_lt r
      omega
    simp [h32]
  have hne : t.schedMaskForForcePauseFull &&& 0xFFFFFFF0 ≠ 0 := by
    intro e
    rw [e] at hbit
    simp at hbit
  simpa using hne

theorem IsForcePaused_iff_of_WantedDeclared (t : KThread) (h : t.WantedDeclared) :
    t.IsForcePaused = true ↔ ∃ r : ForcePauseReason, t.IsForcePausedFor r = true := by
  constructor
  · intro hp
    rcases h with h0 | hr
    · unfold IsForcePaused at hp
      rw [h0] at hp
      simp at hp
    · exact hr
  · rintro ⟨r, hr⟩
    exact IsForcePaused_of_IsForcePausedFor t r hr

/-! ### The member comparison on reachable states -/

/-- In every state reached from a constructed thread the member comparison is
false for each declared status: the wanted mask it reads is 0 or at least 16. -/
theorem CompareSchedulingStatusFull_false_of_WantedDeclared (t : KThread) (s : SchedulingStatus)
    (h : t.WantedDeclared)
    (hs : s = SchedulingStatus.Paused ∨ s = SchedulingStatus.Running ∨ s = SchedulingStatus.Exited) :
    t.CompareSchedulingStatusFull s = false := by
  have hw : t.schedMaskForForcePauseFull = 0 ∨ 16 ≤ t.schedMaskForForcePauseFull := by
    rcases h with h0 | ⟨r, hr⟩
    · exact Or.inl h0
    · rw [IsForcePausedFor_eq_testBit] at hr
      have hge := Nat.testBit_implies_ge hr
      have h16 : 2 ^ 4 ≤ 2 ^ (4 + r.toUShort) := Nat.pow_le_pow_right (by norm_num) (by omega)
      exact Or.inr (by omega)
  unfold CompareSchedulingStatusFull CompareSchedulingStatusFullStatic toUShort
  rw [beq_eq_false_iff_ne]
  rcases hs with hs | hs | hs <;> subst hs <;>
    simp only [SchedulingStatus.Paused, SchedulingStatus.Running, SchedulingStatus.Exited] <;>
    omega

theorem CompareSchedulingStatusFull_false_on_reachable (owner : Option KProcess) (id p : Nat)
    (ops : List Op) (s : SchedulingStatus)
    (hs : s = SchedulingStatus.Paused ∨ s = SchedulingStatus.Running ∨ s = SchedulingStatus.Exited) :
    (runOps (mk3 owner id p) ops).CompareSchedulingStatusFull s = false :=
  CompareSchedulingStatusFull_false_of_WantedDeclared _ s
    (WantedDeclared_runOps ops (mk3 owner id p) (Or.inl rfl)) hs

end mesosphere.KThread

/-! ## Claims -/

namespace mesosphere.KThread

/-- C1: `IsDying()` is claimed to hold exactly when the nominal status is `Exited`
or the termination flag is set. On a thread built by the constructor and moved to
`Exited` by `SetSchedulingStatusField`, the nominal status is `Exited` and the
termination flag is clear, yet `IsDying()` is false: the member comparison reads
`schedMaskForForcePauseFull`, which is still 0. -/
theorem C1_IsDying_false_on_exited_thread :
    ((mk3 none 0 64).SetSchedulingStatusField SchedulingStatus.Exited).2.GetSchedulingStatus
        = SchedulingStatus.Exited ∧
    ((mk3 none 0 64).SetSchedulingStatusField SchedulingStatus.Exited).2.terminationWanted = false ∧
    ((mk3 none 0 64).SetSchedulingStatusField SchedulingStatus.Exited).2.schedMaskForForcePauseFull = 0 ∧
    ((mk3 none 0 64).SetSchedulingStatusField SchedulingStatus.Exited).2.IsDying = false := by
  decide

/-- C2: `RemoveForcePauseReasonToField(r)` is claimed to clear reason `r` and
leave the other reasons alone. After adding `Debug` to a fresh thread and then
removing `Debug`, `IsForcePausedFor(Debug)` is still true, and `ThreadActivity`,
which was clear before the removal, is now set; the wanted mask is `0xFFFF`. -/
theorem C2_Remove_keeps_reason_and_sets_others :
    ((mk3 none 0 64).AddForcePauseReasonToField .Debug).IsForcePausedFor .ThreadActivity = false ∧
    (((mk3 none 0 64).AddForcePauseReasonToField .Debug).RemoveForcePauseReasonToField
        .Debug).IsForcePausedFor .Debug = true ∧
    (((mk3 none 0 64).AddForcePauseReasonToField .Debug).RemoveForcePauseReasonToField
        .Debug).IsForcePausedFor .ThreadActivity = true ∧
    (((mk3 none 0 64).AddForcePauseReasonToField .Debug).RemoveForcePauseReasonToField
        .Debug).schedMaskForForcePauseFull = 0xFFFF := by
  decide

/-- C3: after each committed reason toggle the committed mask is claimed to be
effective-runnable exactly when the status is `Running` and the set of reasons
added and not removed is empty. On a `Running` thread with empty reason sets,
adding `Debug` and then removing it leaves the specification's reason set empty
and the status `Running`, but the committed mask is `0xFFF2` and does not compare
equal to `Running`. -/
theorem C3_not_runnable_after_add_remove :
    ((mk3 none 0 64).SetSchedulingStatusField SchedulingStatus.Running).2.currentSchedMaskFull = 2 ∧
    ((mk3 none 0 64).SetSchedulingStatusField
        SchedulingStatus.Running).2.schedMaskForForcePauseFull = 0 ∧
    reasonSetAfter [.add .Debug, .remove .Debug] = [] ∧
    (runReasonOps ((mk3 none 0 64).SetSchedulingStatusField SchedulingStatus.Running).2
        [.add .Debug, .remove .Debug]).GetSchedulingStatus = SchedulingStatus.Running ∧
    (runReasonOps ((mk3 none 0 64).SetSchedulingStatusField SchedulingStatus.Running).2
        [.add .Debug, .remove .Debug]).currentSchedMaskFull = 0xFFF2 ∧
    CompareSchedulingStatusFullStatic
      (runReasonOps ((mk3 none 0 64).SetSchedulingStatusField SchedulingStatus.Running).2
        [.add .Debug, .remove .Debug]).currentSchedMaskFull SchedulingStatus.Running = false := by
  decide

/-- C4: once `SetTerminationWanted()` has been called, the termination flag is
set and `IsDying()` is true, and both remain so after every finite sequence of
mutator calls. -/
theorem C4_IsDying_permanent_after_SetTerminationWanted (t : KThread) (ops : List Op) :
    t.SetTerminationWanted.terminationWanted = true ∧
    t.SetTerminationWanted.IsDying = true ∧
    (runOps t.SetTerminationWanted ops).terminationWanted = true ∧
    (runOps t.SetTerminationWanted ops).IsDying = true := by
  have h0 : t.SetTerminationWanted.terminationWanted = true := rfl
  have h1 := terminationWanted_runOps ops t.SetTerminationWanted h0
  refine ⟨h0, ?_, h1, ?_⟩
  · simp [IsDying, h0]
  · simp [IsDying, h1]

/-- C5: `CommitForcePauseToField()` returns the previous committed full mask,
makes the committed reason bits equal to the wanted reason bits, keeps the
nominal status, and keeps the wanted mask. -/
theorem C5_CommitForcePauseToField_spec (t : KThread) (h : t.WellFormed) :
    t.CommitForcePauseToField.1 = t.currentSchedMaskFull ∧
    reasonBits t.CommitForcePauseToField.2.currentSchedMaskFull
      = reasonBits t.schedMaskForForcePauseFull ∧
    t.CommitForcePauseToField.2.GetSchedulingStatus = t.GetSchedulingStatus ∧
    t.CommitForcePauseToField.2.schedMaskForForcePauseFull = t.schedMaskForForcePauseFull := by
  refine ⟨rfl, ?_, GetSchedulingStatus_CommitForcePauseToField t, rfl⟩
  have e : t.CommitForcePauseToField.2.currentSchedMaskFull
      = 16 * (t.schedMaskForForcePauseFull / 16) + t.currentSchedMaskFull % 16 :=
    high_or_nibble_toUShort _ _ h.2
  rw [reasonBits_eq_div, reasonBits_eq_div, e]
  omega

/-- C5 at a thread with wanted mask `0x50` and committed mask `0x22`. -/
theorem C5_CommitForcePauseToField_spec_witness :
    ({ currentSchedMaskFull := 0x22, schedMaskForForcePauseFull := 0x50 } : KThread).WellFormed ∧
    ({ currentSchedMaskFull := 0x22, schedMaskForForcePauseFull := 0x50 }
        : KThread).CommitForcePauseToField.1 = 0x22 ∧
    reasonBits ({ currentSchedMaskFull := 0x22, schedMaskForForcePauseFull := 0x50 }
        : KThread).CommitForcePauseToField.2.currentSchedMaskFull = reasonBits 0x50 :=
  ⟨by decide,
   (C5_CommitForcePauseToField_spec
      { currentSchedMaskFull := 0x22, schedMaskForForcePauseFull := 0x50 } (by decide)).1,
   (C5_CommitForcePauseToField_spec
      { currentSchedMaskFull := 0x22, schedMaskForForcePauseFull := 0x50 } (by decide)).2.1⟩

/-- C6: for a status among `Paused`, `Running`, `Exited`,
`SetSchedulingStatusField(s)` returns the previous committed full mask, makes the
nominal status `s`, keeps the committed reason bits and the wanted mask, and
changes no field other than `currentSchedMaskFull`. -/
theorem C6_SetSchedulingStatusField_spec (t : KThread) (s : SchedulingStatus)
    (h : t.WellFormed)
    (hs : s = SchedulingStatus.Paused ∨ s = SchedulingStatus.Running ∨ s = SchedulingStatus.Exited) :
    (t.SetSchedulingStatusField s).1 = t.currentSchedMaskFull ∧
    (t.SetSchedulingStatusField s).2.GetSchedulingStatus = s ∧
    reasonBits (t.SetSchedulingStatusField s).2.currentSchedMaskFull
      = reasonBits t.currentSchedMaskFull ∧
    (t.SetSchedulingStatusField s).2.schedMaskForForcePauseFull = t.schedMaskForForcePauseFull ∧
    (t.SetSchedulingStatusField s).2 =
      { t with currentSchedMaskFull := (t.SetSchedulingStatusField s).2.currentSchedMaskFull } := by
  refine ⟨rfl, ?_, ?_, rfl, rfl⟩
  · rw [GetSchedulingStatus_SetSchedulingStatusField]
    rcases hs with hs | hs | hs <;> subst hs <;> rfl
  · have e : (t.SetSchedulingStatusField s).2.currentSchedMaskFull
        = 16 * (t.currentSchedMaskFull / 16) + toUShort s.val % 16 :=
      high_or_nibble_toUShort _ _ h.1
    rw [reasonBits_eq_div, reasonBits_eq_div, e]
    omega

/-- C6 at a `Paused` thread with committed mask `0x41`, set to `Running`. -/
theorem C6_SetSchedulingStatusField_spec_witness :
    ({ currentSchedMaskFull := 0x41, schedMaskForForcePauseFull := 0x40 } : KThread).WellFormed ∧
    (({ currentSchedMaskFull := 0x41, schedMaskForForcePauseFull := 0x40 }
        : KThread).SetSchedulingStatusField SchedulingStatus.Running).1 = 0x41 ∧
    (({ currentSchedMaskFull := 0x41, schedMaskForForcePauseFull := 0x40 }
        : KThread).SetSchedulingStatusField SchedulingStatus.Running).2.GetSchedulingStatus
      = SchedulingStatus.Running :=
  ⟨by decide,
   (C6_SetSchedulingStatusField_spec
      { currentSchedMaskFull := 0x41, schedMaskForForcePauseFull := 0x40 }
      SchedulingStatus.Running (by decide) (Or.inr (Or.inl rfl))).1,
   (C6_SetSchedulingStatusField_spec
      { currentSchedMaskFull := 0x41, schedMaskForForcePauseFull := 0x40 }
      SchedulingStatus.Running (by decide) (Or.inr (Or.inl rfl))).2.1⟩

/-- C7: `RevertForcePauseToField()` returns the previous committed full mask and
leaves a committed mask with no reason bit, the same nominal status, and which
compares equal to exactly its nominal status. -/
theorem C7_RevertForcePauseToField_spec (t : KThread) :
    t.RevertForcePauseToField.1 = t.currentSchedMaskFull ∧
    reasonBits t.RevertForcePauseToField.2.currentSchedMaskFull = 0 ∧
    t.RevertForcePauseToField.2.GetSchedulingStatus = t.GetSchedulingStatus ∧
    CompareSchedulingStatusFullStatic t.RevertForcePauseToField.2.currentSchedMaskFull
      t.RevertForcePauseToField.2.GetSchedulingStatus = true := by
  have e : t.RevertForcePauseToField.2.currentSchedMaskFull = t.currentSchedMaskFull % 16 := by
    unfold RevertForcePauseToField toUShort
    simp only [and_0xF_eq_mod]
    omega
  refine ⟨rfl, ?_, GetSchedulingStatus_RevertForcePauseToField t, ?_⟩
  · rw [reasonBits_eq_div, e]
    omega
  · unfold CompareSchedulingStatusFullStatic GetSchedulingStatus toUShort
    simp only [e, and_0xF_eq_mod, beq_iff_eq]
    omega

/-- C8: `AddForcePauseReasonToField(r)` sets reason `r` in the wanted mask,
leaves every other reason as it was, and leaves the committed mask untouched. -/
theorem C8_AddForcePauseReasonToField_spec (t : KThread) (r : ForcePauseReason) :
    (t.AddForcePauseReasonToField r).IsForcePausedFor r = true ∧
    (∀ r', r' ≠ r →
      (t.AddForcePauseReasonToField r).IsForcePausedFor r' = t.IsForcePausedFor r') ∧
    (t.AddForcePauseReasonToField r).currentSchedMaskFull = t.currentSchedMaskFull ∧
    (t.AddForcePauseReasonToField r).GetSchedulingStatus = t.GetSchedulingStatus := by
  refine ⟨?_, ?_, rfl, rfl⟩
  · rw [IsForcePausedFor_AddForcePauseReasonToField]
    simp
  · intro r' hne
    rw [IsForcePausedFor_AddForcePauseReasonToField]
    simp [hne]

/-- C8 on a fresh thread: adding `Debug` sets `Debug` and leaves `Reserved` clear. -/
theorem C8_AddForcePauseReasonToField_spec_witness :
    ((mk3 none 0 64).AddForcePauseReasonToField .Debug).IsForcePausedFor .Debug = true ∧
    ((mk3 none 0 64).AddForcePauseReasonToField .Debug).IsForcePausedFor .Reserved
      = (mk3 none 0 64).IsForcePausedFor .Reserved :=
  ⟨(C8_AddForcePauseReasonToField_spec (mk3 none 0 64) .Debug).1,
   (C8_AddForcePauseReasonToField_spec (mk3 none 0 64) .Debug).2.1 .Reserved (by decide)⟩

/-- C9: a thread built by `KThread(owner, id, p)` has the given id, priority `p`
equal to its base priority, status `Paused`, no force-pause reason, is not dying,
is not in a kernel wait, waits on no mutex, has no mutex waiters, and its current
core 0 is in its affinity mask 15. -/
theorem C9_constructor_initial_state (owner : Option KProcess) (id p : Nat) :
    (mk3 owner id p).GetId = id ∧
    (mk3 owner id p).GetPriority = p ∧
    (mk3 owner id p).basePriority = p ∧
    (mk3 owner id p).GetOwner = owner ∧
    (mk3 owner id p).GetSchedulingStatus = SchedulingStatus.Paused ∧
    (mk3 owner id p).IsForcePaused = false ∧
    (∀ r, (mk3 owner id p).IsForcePausedFor r = false) ∧
    (mk3 owner id p).IsDying = false ∧
    (mk3 owner id p).IsInKernelSync = false ∧
    (mk3 owner id p).GetWantedMutex = 0 ∧
    (mk3 owner id p).GetNumberOfKMutexWaiters = 0 ∧
    (mk3 owner id p).GetCurrentCoreId = 0 ∧
    (mk3 owner id p).GetAffinityMask = 15 ∧
    (mk3 owner id p).GetAffinityMask.testBit (mk3 owner id p).GetCurrentCoreId.toNat = true := by
  have hc : (mk3 owner id p).currentSchedMaskFull = 1 := rfl
  have hw : (mk3 owner id p).schedMaskForForcePauseFull = 0 := rfl
  have hcore : (mk3 owner id p).GetCurrentCoreId = 0 := rfl
  have haff : (mk3 owner id p).GetAffinityMask = 15 := rfl
  refine ⟨rfl, rfl, rfl, rfl, ?_, ?_, ?_, rfl, rfl, rfl, rfl, hcore, haff, ?_⟩
  · unfold GetSchedulingStatus
    rw [hc]
    decide
  · unfold IsForcePaused
    rw [hw]
    decide
  · intro r
    unfold IsForcePausedFor
    rw [hw]
    cases r <;> decide
  · rw [hcore, haff]
    decide

/-- C10 as stated fails: on an `Exited` thread, `SetSchedulingStatusField(Running)`
leaves the nominal status `Running`. -/
theorem C10_Exited_left_by_SetSchedulingStatusField :
    ((mk3 none 0 64).SetSchedulingStatusField SchedulingStatus.Exited).2.GetSchedulingStatus
      = SchedulingStatus.Exited ∧
    ((((mk3 none 0 64).SetSchedulingStatusField SchedulingStatus.Exited).2).SetSchedulingStatusField
        SchedulingStatus.Running).2.GetSchedulingStatus ≠ SchedulingStatus.Exited := by
  decide

/-- C10 amended: on a thread whose nominal status is `Exited`, the force-pause
operations (add, remove, commit, revert) leave the nominal status `Exited`, and
`SetSchedulingStatusField(s)` with `s` among `Paused`, `Running`, `Exited` leaves
the nominal status `s`, hence `Exited` exactly when `s` is `Exited`. -/
theorem C10_Exited_kept_by_force_pause_ops (t : KThread)
    (hE : t.GetSchedulingStatus = SchedulingStatus.Exited) :
    (∀ r, (t.AddForcePauseReasonToField r).GetSchedulingStatus = SchedulingStatus.Exited) ∧
    (∀ r, (t.RemoveForcePauseReasonToField r).GetSchedulingStatus = SchedulingStatus.Exited) ∧
    t.CommitForcePauseToField.2.GetSchedulingStatus = SchedulingStatus.Exited ∧
    t.RevertForcePauseToField.2.GetSchedulingStatus = SchedulingStatus.Exited ∧
    (∀ s, s = SchedulingStatus.Paused ∨ s = SchedulingStatus.Running ∨ s = SchedulingStatus.Exited →
      (t.SetSchedulingStatusField s).2.GetSchedulingStatus = s ∧
      ((t.SetSchedulingStatusField s).2.GetSchedulingStatus = SchedulingStatus.Exited
        ↔ s = SchedulingStatus.Exited)) := by
  refine ⟨fun _ => hE, fun _ => hE, ?_, ?_, ?_⟩
  · rw [GetSchedulingStatus_CommitForcePauseToField]; exact hE
  · rw [GetSchedulingStatus_RevertForcePauseToField]; exact hE
  · intro s hs
    have e : (t.SetSchedulingStatusField s).2.GetSchedulingStatus = s := by
      rw [GetSchedulingStatus_SetSchedulingStatusField]
      rcases hs with hs | hs | hs <;> subst hs <;> rfl
    exact ⟨e, by rw [e]⟩

/-- C10 amended, at the `Exited` thread with committed mask `0x23` and wanted
mask `0x20`. -/
theorem C10_Exited_kept_by_force_pause_ops_witness :
    ({ currentSchedMaskFull := 0x23, schedMaskForForcePauseFull := 0x20 }
        : KThread).GetSchedulingStatus = SchedulingStatus.Exited ∧
    ({ currentSchedMaskFull := 0x23, schedMaskForForcePauseFull := 0x20 }
        : KThread).CommitForcePauseToField.2.GetSchedulingStatus = SchedulingStatus.Exited ∧
    ({ currentSchedMaskFull := 0x23, schedMaskForForcePauseFull := 0x20 }
        : KThread).RevertForcePauseToField.2.GetSchedulingStatus = SchedulingStatus.Exited :=
  ⟨by decide,
   (C10_Exited_kept_by_force_pause_ops
      { currentSchedMaskFull := 0x23, schedMaskForForcePauseFull := 0x20 } (by decide)).2.2.1,
   (C10_Exited_kept_by_force_pause_ops
      { currentSchedMaskFull := 0x23, schedMaskForForcePauseFull := 0x20 } (by decide)).2.2.2.1⟩

/-- C11: for a 16-bit full mask `m` and a status `s` among `Paused`, `Running`,
`Exited`, the static `CompareSchedulingStatusFull(m, s)` holds exactly when the
low nibble of `m` is `s` and no bit of `m` above the nibble is set; this holds
for `Running` in particular, and a mask with a reason bit set compares equal to
no status. -/
theorem C11_static_compare_iff_nibble_and_no_reason (m : Nat) (s : SchedulingStatus)
    (hm : m < 65536)
    (hs : s = SchedulingStatus.Paused ∨ s = SchedulingStatus.Running ∨ s = SchedulingStatus.Exited) :
    (CompareSchedulingStatusFullStatic m SchedulingStatus.Running = true ↔
      ((⟨m &&& 0xF⟩ : SchedulingStatus) = SchedulingStatus.Running ∧ m &&& intNot 0xF = 0)) ∧
    (CompareSchedulingStatusFullStatic m s = true ↔
      ((⟨m &&& 0xF⟩ : SchedulingStatus) = s ∧ m &&& intNot 0xF = 0)) ∧
    (m &&& intNot 0xF ≠ 0 → CompareSchedulingStatusFullStatic m s = false) := by
  have hlt : s.val < 16 := by
    rcases hs with hs | hs | hs <;> subst hs <;> decide
  have hR := CompareSchedulingStatusFullStatic_iff m SchedulingStatus.Running hm (by decide)
  have hS := CompareSchedulingStatusFullStatic_iff m s hm hlt
  refine ⟨hR, hS, ?_⟩
  intro hne
  cases hc : CompareSchedulingStatusFullStatic m s
  · rfl
  · exact absurd (hS.mp hc).2 hne

/-- C11 at the masks `0x02` (runnable) and `0x42` (a reason bit set). -/
theorem C11_static_compare_iff_nibble_and_no_reason_witness :
    CompareSchedulingStatusFullStatic 0x02 SchedulingStatus.Running = true ∧
    CompareSchedulingStatusFullStatic 0x42 SchedulingStatus.Running = false :=
  ⟨(C11_static_compare_iff_nibble_and_no_reason 0x02 SchedulingStatus.Running (by decide)
      (Or.inr (Or.inl rfl))).2.1.mpr (by decide),
   (C11_static_compare_iff_nibble_and_no_reason 0x42 SchedulingStatus.Running (by decide)
      (Or.inr (Or.inl rfl))).2.2 (by decide)⟩

/-- C12: the member `CompareSchedulingStatusFull(s)` is claimed to equal the
static comparison of the committed mask `currentSchedMaskFull`. On a thread
fresh from the constructor, with status `Paused` and no committed reason bit,
the static comparison of the committed mask with `Paused` is true but the member
comparison is false, because it compares the wanted mask, which is 0. -/
theorem C12_member_compare_reads_wanted_mask :
    (mk3 none 0 64).GetSchedulingStatus = SchedulingStatus.Paused ∧
    reasonBits (mk3 none 0 64).currentSchedMaskFull = 0 ∧
    CompareSchedulingStatusFullStatic (mk3 none 0 64).currentSchedMaskFull
      SchedulingStatus.Paused = true ∧
    (mk3 none 0 64).CompareSchedulingStatusFull SchedulingStatus.Paused = false := by
  decide

/-- C13: for a thread with an owner, `IsSchedulerOperationRedundant()` is true
right after `SetRedundantSchedulerOperation()`, false after `n ≥ 1` further
`IncrementSchedulerOperationCount()` calls, and true again once
`SetRedundantSchedulerOperation()` is called again; for a thread without owner it
is false and neither call changes the thread. -/
theorem C13_redundant_operation_guard (t : KThread) (n : Nat) (hn : 1 ≤ n) :
    (t.owner ≠ none →
      t.SetRedundantSchedulerOperation.IsSchedulerOperationRedundant = true ∧
      (Nat.iterate IncrementSchedulerOperationCount n
        t.SetRedundantSchedulerOperation).IsSchedulerOperationRedundant = false ∧
      (Nat.iterate IncrementSchedulerOperationCount n
        t.SetRedundantSchedulerOperation).SetRedundantSchedulerOperation.IsSchedulerOperationRedundant
        = true) ∧
    (t.owner = none →
      t.IsSchedulerOperationRedundant = false ∧
      t.SetRedundantSchedulerOperation.IsSchedulerOperationRedundant = false ∧
      t.SetRedundantSchedulerOperation = t ∧
      t.IncrementSchedulerOperationCount = t) := by
  constructor
  · intro hsome
    obtain ⟨p, hp⟩ := Option.ne_none_iff_exists'.mp hsome
    have hset : t.SetRedundantSchedulerOperation.owner = some p := hp
    have hred : t.SetRedundantSchedulerOperation.redundantSchedulerOperationCount
        = p.schedulerOperationCount := by
      unfold SetRedundantSchedulerOperation
      simp only [hp]
      rfl
    have hit := owner_iterate_IncrementSchedulerOperationCount n
      t.SetRedundantSchedulerOperation p hset
    refine ⟨?_, ?_, ?_⟩
    · unfold IsSchedulerOperationRedundant
      rw [hset, hred]
      simp [KProcess.GetSchedulerOperationCount]
    · unfold IsSchedulerOperationRedundant
      rw [hit.1, hit.2, hred]
      simp only [KProcess.GetSchedulerOperationCount, beq_eq_false_iff_ne, ne_eq]
      omega
    · exact IsSchedulerOperationRedundant_SetRedundantSchedulerOperation _ _ hit.1
  · intro hnone
    refine ⟨?_, ?_, ?_, ?_⟩
    · unfold IsSchedulerOperationRedundant
      rw [hnone]
    · unfold IsSchedulerOperationRedundant SetRedundantSchedulerOperation
      simp only [hnone]
    · cases t
      simp only at hnone
      subst hnone
      rfl
    · unfold IncrementSchedulerOperationCount
      rw [hnone]

/-- C13 at a thread owned by a process whose count is 5, with two increments. -/
theorem C13_redundant_operation_guard_witness :
    (mk3 (some { schedulerOperationCount := 5 }) 1 64).owner ≠ none ∧
    (mk3 (some { schedulerOperationCount := 5 }) 1
        64).SetRedundantSchedulerOperation.IsSchedulerOperationRedundant = true ∧
    (Nat.iterate IncrementSchedulerOperationCount 2
        (mk3 (some { schedulerOperationCount := 5 }) 1
          64).SetRedundantSchedulerOperation).IsSchedulerOperationRedundant = false :=
  ⟨by decide,
   ((C13_redundant_operation_guard (mk3 (some { schedulerOperationCount := 5 }) 1 64) 2
      (by decide)).1 (by decide)).1,
   ((C13_redundant_operation_guard (mk3 (some { schedulerOperationCount := 5 }) 1 64) 2
      (by decide)).1 (by decide)).2.1⟩

/-- C14 as stated fails: at `lastScheduledTime = 2^63 - 1` the signed read is
`2^63 - 1` before `UpdateLastScheduledTime()` and `-2^63` after it. -/
theorem C14_signed_read_wraps_at_long_max :
    ({ lastScheduledTime := 9223372036854775807 } : KThread).GetLastScheduledTime
      = 9223372036854775807 ∧
    ({ lastScheduledTime := 9223372036854775807 }
        : KThread).UpdateLastScheduledTime.GetLastScheduledTime = -9223372036854775808 ∧
    ¬ (({ lastScheduledTime := 9223372036854775807 } : KThread).GetLastScheduledTime
        < ({ lastScheduledTime := 9223372036854775807 }
            : KThread).UpdateLastScheduledTime.GetLastScheduledTime) := by
  decide

/-- C14 amended: when the signed read `GetLastScheduledTime()` is not the largest
`long`, `UpdateLastScheduledTime()` raises it by exactly one, so it is strictly
greater than before; and no other mutator changes `lastScheduledTime`. -/
theorem C14_last_scheduled_time_increases (t : KThread)
    (h : t.GetLastScheduledTime ≠ 9223372036854775807) :
    t.UpdateLastScheduledTime.GetLastScheduledTime = t.GetLastScheduledTime + 1 ∧
    t.GetLastScheduledTime < t.UpdateLastScheduledTime.GetLastScheduledTime ∧
    (∀ op, op ≠ Op.UpdateLastScheduledTime →
      (applyOp t op).lastScheduledTime = t.lastScheduledTime ∧
      (applyOp t op).GetLastScheduledTime = t.GetLastScheduledTime) := by
  have e : t.UpdateLastScheduledTime.GetLastScheduledTime = t.GetLastScheduledTime + 1 :=
    toLong_succ t.lastScheduledTime h
  refine ⟨e, by omega, ?_⟩
  intro op hop
  have hf := lastScheduledTime_applyOp t op hop
  refine ⟨hf, ?_⟩
  unfold GetLastScheduledTime
  rw [hf]

/-- C14 amended, at a thread fresh from the constructor. -/
theorem C14_last_scheduled_time_increases_witness :
    (mk3 none 0 64).GetLastScheduledTime ≠ 9223372036854775807 ∧
    (mk3 none 0 64).GetLastScheduledTime
      < (mk3 none 0 64).UpdateLastScheduledTime.GetLastScheduledTime :=
  ⟨by decide, (C14_last_scheduled_time_increases (mk3 none 0 64) (by decide)).2.1⟩

/-- C15: after `ClearSync()` the recorded signaled object is none and the sync
result is the success result; restoring these two fields gives back the thread
as it was, so no other field changed, and `IsSyncCancelled()` and
`IsWaitingSync()` are as before. -/
theorem C15_ClearSync_spec (t : KThread) :
    t.ClearSync.signaledSyncObject = none ∧
    t.ClearSync.GetSyncResult = ResultSuccess ∧
    { t.ClearSync with signaledSyncObject := t.signaledSyncObject, syncResult := t.syncResult }
      = t ∧
    t.ClearSync.IsSyncCancelled = t.IsSyncCancelled ∧
    t.ClearSync.IsWaitingSync = t.IsWaitingSync := by
  refine ⟨rfl, rfl, ?_, rfl, rfl⟩
  cases t
  rfl

/-- C16: in every state reached from a freshly constructed thread by a finite
sequence of mutators, `IsForcePaused()` is true exactly when `IsForcePausedFor(r)`
is true for one of the five declared reasons. -/
theorem C16_IsForcePaused_iff_some_declared_reason (owner : Option KProcess) (id p : Nat)
    (ops : List Op) :
    ((runOps (mk3 owner id p) ops).IsForcePaused = true ↔
      ∃ r : ForcePauseReason, (runOps (mk3 owner id p) ops).IsForcePausedFor r = true) ∧
    ((runOps ({} : KThread) ops).IsForcePaused = true ↔
      ∃ r : ForcePauseReason, (runOps ({} : KThread) ops).IsForcePausedFor r = true) := by
  constructor
  · exact IsForcePaused_iff_of_WantedDeclared _
      (WantedDeclared_runOps ops (mk3 owner id p) (Or.inl rfl))
  · exact IsForcePaused_iff_of_WantedDeclared _
      (WantedDeclared_runOps ops ({} : KThread) (Or.inl rfl))

/-- C17: `RevertForcePauseToField()` leaves the wanted mask, `IsForcePaused()` and
every `IsForcePausedFor(r)` unchanged; revert followed by commit gives the same
thread state as commit alone; commit and revert are each idempotent on the
thread state. -/
theorem C17_revert_undone_by_commit (t : KThread) (r : ForcePauseReason) :
    t.RevertForcePauseToField.2.schedMaskForForcePauseFull = t.schedMaskForForcePauseFull ∧
    t.RevertForcePauseToField.2.IsForcePaused = t.IsForcePaused ∧
    t.RevertForcePauseToField.2.IsForcePausedFor r = t.IsForcePausedFor r ∧
    t.RevertForcePauseToField.2.CommitForcePauseToField.2 = t.CommitForcePauseToField.2 ∧
    t.CommitForcePauseToField.2.CommitForcePauseToField.2 = t.CommitForcePauseToField.2 ∧
    t.RevertForcePauseToField.2.RevertForcePauseToField.2 = t.RevertForcePauseToField.2 := by
  refine ⟨rfl, rfl, rfl, ?_, ?_, ?_⟩
  · cases t
    simp only [CommitForcePauseToField, RevertForcePauseToField, KThread.mk.injEq, true_and,
      and_true]
    rw [nibble_toUShort_nibble]
  · cases t
    simp only [CommitForcePauseToField, KThread.mk.injEq, true_and, and_true]
    rw [nibble_commit]
  · cases t
    simp only [RevertForcePauseToField, KThread.mk.injEq, true_and, and_true]
    rw [nibble_toUShort_nibble]

end mesosphere.KThread
